import Mathlib

/-!
Shallow embedding of the ostrich-swarm coordination engine
(`src/managers/JobScheduler.ts`, `src/managers/AuthManager.ts`,
`src/SwarmCoordinator.ts`).

Modelling conventions:
* TypeScript `Map`s become association lists (`alookup` / `upsert`) or,
  for the device registry, lookup functions `String → Option DeviceInfo`.
* JavaScript numbers become `ℚ` where fractional values can arise
  (weights, scores, durations) and `ℤ`/`ℕ` for counters and timestamps.
* `Math.random`-generated strings (job ids, tokens) are supplied as
  explicit parameters or recorded as data; randomness itself is not modelled.
* `Date.now()` becomes an explicit `now : ℤ` parameter.
-/

namespace OstrichSwarm

/-- JavaScript `x || d` for a numeric `x`: `0` is falsy, every other number
is truthy.  Used for `device.capabilities.cpuCores || 4`. -/
def orDefault (x d : Nat) : Nat := if x = 0 then d else x

/-- Association-list lookup, modelling `Map.get`. -/
def alookup {α : Type} (k : String) : List (String × α) → Option α
  | [] => none
  | (k', v) :: rest => if k' = k then some v else alookup k rest

/-- Association-list insert-or-replace, modelling `Map.set`. -/
def upsert {α : Type} (k : String) (v : α) : List (String × α) → List (String × α)
  | [] => [(k, v)]
  | (k', v') :: rest => if k' = k then (k, v) :: rest else (k', v') :: upsert k v rest

/-- `JobType` from `src/core/types` (`"MATH_STRESS" | "MAT_MUL" | "TEXT_TOKENIZE"`). -/
inductive JobType
  | MATH_STRESS
  | MAT_MUL
  | TEXT_TOKENIZE
deriving DecidableEq, Repr

/-- `Job` from `src/core/types`.  The kind-specific `data` payload is never
inspected by the scheduler and is not modelled. -/
structure Job where
  id : String
  type : JobType
  complexity : Int
deriving DecidableEq, Repr

/-- `DeviceConnectionStatus` from `src/core/types`. -/
inductive DeviceStatus
  | OFFLINE
  | ONLINE
  | BUSY
  | DISABLED
  | REGISTERED
deriving DecidableEq, Repr

/-- `DeviceType` from `src/core/types`. -/
inductive DeviceType
  | DESKTOP
  | MOBILE
  | COLAB
  | SERVER
deriving DecidableEq, Repr

/-- `DeviceCapabilities` from `src/core/types` (`gpuName` is unused by the
scheduler and registry logic and is not modelled). -/
structure DeviceCapabilities where
  cpuCores : Nat
  memoryGB : Nat
  gpuAvailable : Bool
deriving DecidableEq, Repr

/-- `DeviceInfo` from `src/core/types`. -/
structure DeviceInfo where
  id : String
  name : String
  deviceType : DeviceType
  status : DeviceStatus
  capabilities : DeviceCapabilities
  opsScore : ℚ
  totalJobsCompleted : Nat
  lastHeartbeat : Int
  lastUserInteraction : Int
  swarmId : String
deriving DecidableEq, Repr

/-! ## JobScheduler (`src/managers/JobScheduler.ts`) -/

/-- `DeviceJobQuota` from `src/managers/JobScheduler.ts`. -/
structure DeviceJobQuota where
  deviceId : String
  weight : ℚ
  activeJobs : Int
  maxConcurrent : Int
deriving DecidableEq, Repr

/-- The mutable fields of a `JobScheduler` instance. -/
structure SchedulerState where
  jobQueue : List Job
  deviceQuotas : List (String × DeviceJobQuota)
  deviceWeights : List (String × ℚ)
  totalWeight : ℚ
deriving DecidableEq, Repr

/-- The scheduler's state right after the constructor runs, with the job queue
left as a parameter (the queue is filled over time by `generateJobs`, whose
contents are random). -/
def initScheduler (queue : List Job) : SchedulerState :=
  { jobQueue := queue, deviceQuotas := [], deviceWeights := [], totalWeight := 0 }

/-- `JobScheduler.calculateWeight`.  `device.opsScore || 0` is the identity on
numbers (`0 || 0` is `0`), so it is not written out. -/
def calculateWeight (device : DeviceInfo) : ℚ :=
  let cpu : ℚ := (orDefault device.capabilities.cpuCores 4 : ℚ) * 10
  let gpu : ℚ := if device.capabilities.gpuAvailable then 50 else 0
  let score : ℚ := min (device.opsScore / 1000) 100
  max 1 (cpu + gpu + score)

/-- The quota record `registerDevice` stores: fresh `activeJobs = 0` and
`maxConcurrent = Math.max(10, (cpuCores || 4) * 4)`. -/
def newQuota (device : DeviceInfo) (weight : ℚ) : DeviceJobQuota :=
  { deviceId := device.id
    weight := weight
    activeJobs := 0
    maxConcurrent := max 10 ((orDefault device.capabilities.cpuCores 4 : Int) * 4) }

/-- `JobScheduler.registerDevice`. -/
def registerDevice (s : SchedulerState) (device : DeviceInfo) : SchedulerState :=
  let weight := calculateWeight device
  let old := (alookup device.id s.deviceWeights).getD 0
  { jobQueue := s.jobQueue
    totalWeight := s.totalWeight + (weight - old)
    deviceWeights := upsert device.id weight s.deviceWeights
    deviceQuotas := upsert device.id (newQuota device weight) s.deviceQuotas }

/-- The preferred job type computed in `getJobBatchForDevice`:
`device.capabilities.gpuAvailable ? "MAT_MUL" : "MATH_STRESS"`. -/
def preferredType (device : DeviceInfo) : JobType :=
  if device.capabilities.gpuAvailable then .MAT_MUL else .MATH_STRESS

/-- `Array.prototype.findIndex` restricted to a successful result:
index of the first element satisfying `p`, if any. -/
def findIdxAux (p : Job → Bool) : List Job → Option Nat
  | [] => none
  | j :: rest => if p j then some 0 else (findIdxAux p rest).map (· + 1)

/-- The index selected by one iteration of the batch loop:
`findIndex` of the preferred type, falling back to `0` when it returns `-1`. -/
def pickIdx (queue : List Job) (preferred : JobType) : Nat :=
  match findIdxAux (fun j => j.type == preferred) queue with
  | some i => i
  | none => 0

/-- The `for (let i = 0; i < batchSize; i++)` loop body of
`getJobBatchForDevice`: repeatedly splice out the job at `pickIdx` (guarded by
`idx < queue.length`, which only fails on an empty queue) and increment
`quota.activeJobs`.  Returns (batch, remaining queue, new activeJobs). -/
def batchLoop (preferred : JobType) : Nat → List Job → Int → List Job × List Job × Int
  | 0, queue, active => ([], queue, active)
  | n + 1, queue, active =>
    let idx := pickIdx queue preferred
    if h : idx < queue.length then
      let out := batchLoop preferred n (queue.eraseIdx idx) (active + 1)
      (queue.get ⟨idx, h⟩ :: out.1, out.2)
    else
      batchLoop preferred n queue active

/-- The `share` computed in `getJobBatchForDevice`:
`max(1, floor((weight / max(1, totalWeight)) * requestedCount * 3))` with
`weight = deviceWeights.get(id) || 1`. -/
def share (s : SchedulerState) (deviceId : String) (requestedCount : ℚ) : Int :=
  let weight := (alookup deviceId s.deviceWeights).getD 1
  max 1 ⌊weight / max 1 s.totalWeight * requestedCount * 3⌋

/-- The body of `getJobBatchForDevice` once the quota is known to exist. -/
def getJobBatchCore (s : SchedulerState) (device : DeviceInfo) (requestedCount : ℚ)
    (quota : DeviceJobQuota) : List Job × SchedulerState :=
  let availableSlots := quota.maxConcurrent - quota.activeJobs
  if availableSlots ≤ 0 then ([], s)
  else
    let batchSize := min (share s device.id requestedCount)
      (min availableSlots (s.jobQueue.length : Int))
    let r := batchLoop (preferredType device) batchSize.toNat s.jobQueue quota.activeJobs
    (r.1,
      { s with
        jobQueue := r.2.1
        deviceQuotas := upsert device.id { quota with activeJobs := r.2.2 } s.deviceQuotas })

/-- `JobScheduler.getJobBatchForDevice`.  When the device has no quota the
source registers it and recurses once; after `registerDevice` the quota lookup
always succeeds, so the recursion is unrolled (the final `none` branch is
provably dead). -/
def getJobBatchForDevice (s : SchedulerState) (device : DeviceInfo)
    (requestedCount : ℚ) : List Job × SchedulerState :=
  match alookup device.id s.deviceQuotas with
  | some quota => getJobBatchCore s device requestedCount quota
  | none =>
    let s1 := registerDevice s device
    match alookup device.id s1.deviceQuotas with
    | some quota => getJobBatchCore s1 device requestedCount quota
    | none => ([], s1)

/-- The quota after the body of `releaseJobSlot` runs: `activeJobs--`, then,
when a positive duration was supplied, `weight *= durationMs > 2000 ? 0.95 :
1.02` (`durationMs && durationMs > 0` on numbers is equivalent to
`0 < durationMs`). -/
def releasedQuota (quota : DeviceJobQuota) (durationMs : Option ℚ) : DeviceJobQuota :=
  let q1 := { quota with activeJobs := quota.activeJobs - 1 }
  match durationMs with
  | some dur =>
    if 0 < dur then
      { q1 with
        weight := q1.weight * (if 2000 < dur then (95 : ℚ) / 100 else (102 : ℚ) / 100) }
    else q1
  | none => q1

/-- `JobScheduler.releaseJobSlot`. -/
def releaseJobSlot (s : SchedulerState) (deviceId : String)
    (durationMs : Option ℚ) : SchedulerState :=
  match alookup deviceId s.deviceQuotas with
  | none => s
  | some quota =>
    if 0 < quota.activeJobs then
      { s with deviceQuotas := upsert deviceId (releasedQuota quota durationMs) s.deviceQuotas }
    else s

/-- The scheduler operations the spec's invariants quantify over. -/
inductive SchedOp
  | register (device : DeviceInfo)
  | request (device : DeviceInfo) (requestedCount : ℚ)
  | release (deviceId : String) (durationMs : Option ℚ)

/-- Apply one scheduler operation (the batch returned by a request is
discarded; only the state evolution matters for the invariants). -/
def applySchedOp (s : SchedulerState) : SchedOp → SchedulerState
  | .register device => registerDevice s device
  | .request device rc => (getJobBatchForDevice s device rc).2
  | .release deviceId dur => releaseJobSlot s deviceId dur

/-- Apply a sequence of scheduler operations in order. -/
def runSched (s : SchedulerState) (ops : List SchedOp) : SchedulerState :=
  ops.foldl applySchedOp s

/-- Per-device quota bounds: `0 ≤ activeJobs ≤ maxConcurrent`. -/
def QuotaInvariant (s : SchedulerState) : Prop :=
  ∀ id q, alookup id s.deviceQuotas = some q →
    0 ≤ q.activeJobs ∧ q.activeJobs ≤ q.maxConcurrent

/-- The running `totalWeight` equals the sum of all registered weights. -/
def WeightInvariant (s : SchedulerState) : Prop :=
  s.totalWeight = (s.deviceWeights.map Prod.snd).sum

/-! ## DeviceManager (`src/managers/AuthManager.ts`, class `DeviceManager`) -/

/-- The `devices` map of a `DeviceManager`, as a lookup function. -/
def DevMap := String → Option DeviceInfo

/-- `DeviceManager.OFFLINE_THRESHOLD` (60 s). -/
def OFFLINE_THRESHOLD : Int := 60000

/-- `DeviceManager.DELETE_THRESHOLD` (5 min). -/
def DELETE_THRESHOLD : Int := 300000

/-- The device record after the body of `DeviceManager.heartbeat` runs:
refresh `lastHeartbeat`, refresh `lastUserInteraction` when a truthy
(present, non-zero) value is supplied, and promote OFFLINE/REGISTERED to
ONLINE. -/
def heartbeatDevice (device : DeviceInfo) (now : Int)
    (lastInteraction : Option Int) : DeviceInfo :=
  let d1 : DeviceInfo := { device with lastHeartbeat := now }
  let d2 : DeviceInfo :=
    match lastInteraction with
    | some li => if li ≠ 0 then { d1 with lastUserInteraction := li } else d1
    | none => d1
  if d2.status = .OFFLINE ∨ d2.status = .REGISTERED then
    { d2 with status := .ONLINE }
  else d2

/-- `DeviceManager.heartbeat`.  `Date.now()` is the explicit `now`;
no-op for an unknown device. -/
def heartbeat (m : DevMap) (id : String) (now : Int)
    (lastInteraction : Option Int) : DevMap :=
  match m id with
  | none => m
  | some device =>
    fun k => if k = id then some (heartbeatDevice device now lastInteraction) else m k

/-- `DeviceManager.toggleDevice`. -/
def toggleDevice (m : DevMap) (id : String) (enabled : Bool) : DevMap :=
  match m id with
  | none => m
  | some device =>
    fun k =>
      if k = id then some { device with status := if enabled then .ONLINE else .DISABLED }
      else m k

/-- `DeviceManager.cleanup` (the periodic sweep), with `Date.now()` explicit.
Each entry is deleted, marked OFFLINE, or kept independently of the others. -/
def cleanup (now : Int) (m : DevMap) : DevMap :=
  fun id =>
    (m id).bind fun device =>
      let diff := now - device.lastHeartbeat
      if DELETE_THRESHOLD < diff then none
      else if device.status ≠ .DISABLED ∧ OFFLINE_THRESHOLD < diff then
        some { device with status := .OFFLINE }
      else some device

/-- The registry operations claim C8 quantifies over: heartbeats and sweeps. -/
inductive DevOp
  | beat (id : String) (now : Int) (lastInteraction : Option Int)
  | sweep (now : Int)

/-- Apply one registry operation. -/
def applyDevOp (m : DevMap) : DevOp → DevMap
  | .beat id now li => heartbeat m id now li
  | .sweep now => cleanup now m

/-- Apply a sequence of registry operations in order. -/
def runDev (m : DevMap) (ops : List DevOp) : DevMap :=
  ops.foldl applyDevOp m

/-! ## AuthManager (`src/managers/AuthManager.ts`, class `AuthManager`) -/

/-- The value type of `activeTokens`. -/
structure TokenData where
  swarmId : String
  expiresAt : Int
deriving DecidableEq, Repr

/-- The mutable fields of an `AuthManager` instance. -/
structure AuthState where
  activeTokens : List (String × TokenData)
  tokenGenerationLog : List (String × List Int)
deriving DecidableEq, Repr

/-- `AuthManager.TOKEN_TTL_MS` (24 h). -/
def TOKEN_TTL_MS : Int := 24 * 60 * 60 * 1000

/-- The `AuthManager` state right after the constructor runs. -/
def initAuth : AuthState := { activeTokens := [], tokenGenerationLog := [] }

/-- `AuthManager.generateToken`, with `Date.now()` explicit and the
`Math.random()`-generated 6-character code supplied as `freshToken`.
Returns the issued token (or `none` when rate limited) and the new state. -/
def generateToken (st : AuthState) (swarmId : String) (now : Int)
    (freshToken : String) : Option String × AuthState :=
  let generations := ((alookup swarmId st.tokenGenerationLog).getD []).filter
    (fun t => now - 60000 < t)
  if 5 ≤ generations.length then (none, st)
  else
    (some freshToken,
      { activeTokens := upsert freshToken
          { swarmId := swarmId, expiresAt := now + TOKEN_TTL_MS } st.activeTokens
        tokenGenerationLog := upsert swarmId (generations ++ [now])
          st.tokenGenerationLog })

/-- Issue a sequence of token requests for one swarm at the given times,
returning the success flag of each call (token strings are irrelevant to the
rate limit, so a fixed fresh token is used). -/
def issueSeq (st : AuthState) (swarmId : String) : List Int → List Bool × AuthState
  | [] => ([], st)
  | now :: rest =>
    let r := generateToken st swarmId now "T"
    let r2 := issueSeq r.2 swarmId rest
    (r.1.isSome :: r2.1, r2.2)

/-! ## Concrete sample data (used to instantiate the theorems) -/

/-- A 4-core CPU-only device with no benchmark score. -/
def dev4 : DeviceInfo :=
  { id := "d", name := "node-d", deviceType := .DESKTOP, status := .ONLINE
    capabilities := { cpuCores := 4, memoryGB := 8, gpuAvailable := false }
    opsScore := 0, totalJobsCompleted := 0, lastHeartbeat := 0
    lastUserInteraction := 0, swarmId := "S" }

/-- A 4-core GPU-capable device with no benchmark score. -/
def devG : DeviceInfo :=
  { dev4 with
    id := "g"
    capabilities := { cpuCores := 4, memoryGB := 8, gpuAvailable := true } }

/-- A CPU-stress job. -/
def jobA : Job := { id := "A", type := .MATH_STRESS, complexity := 1 }

/-- A matrix-multiply job. -/
def jobB : Job := { id := "B", type := .MAT_MUL, complexity := 1 }

/-- A scheduler state in which `devG` is registered (weight 90, quota 16) with
one job already active, and the queue holds `[jobA, jobB]`. -/
def gState : SchedulerState :=
  { jobQueue := [jobA, jobB]
    deviceQuotas := [("g", { deviceId := "g", weight := 90, activeJobs := 0, maxConcurrent := 16 })]
    deviceWeights := [("g", 90)]
    totalWeight := 90 }

/-- Like `gState` but with 15 of the 16 slots already taken, so exactly one
slot is available. -/
def gStateFull : SchedulerState :=
  { gState with
    deviceQuotas := [("g", { deviceId := "g", weight := 90, activeJobs := 15, maxConcurrent := 16 })] }

/-- A scheduler state in which `dev4` is registered (weight 40, quota 16) with
one active job — as produced by a batch request — and an empty queue. -/
def dStateActive : SchedulerState :=
  { jobQueue := []
    deviceQuotas := [("d", { deviceId := "d", weight := 40, activeJobs := 1, maxConcurrent := 16 })]
    deviceWeights := [("d", 40)]
    totalWeight := 40 }

/-- A registry with the single device `dev4`, with the given status and last
heartbeat at time 0. -/
def oneDev (st : DeviceStatus) : DevMap :=
  fun k => if k = "d" then some { dev4 with status := st } else none

/-- An auth state whose log for swarm "S" holds five issuances at times
0, 10, 20, 30, 40. -/
def fiveIssued : AuthState :=
  { activeTokens := [], tokenGenerationLog := [("S", [0, 10, 20, 30, 40])] }

end OstrichSwarm

namespace OstrichSwarm

/-! ## Association-list lemmas -/

theorem alookup_upsert_self {α : Type} (k : String) (v : α) (l : List (String × α)) :
    alookup k (upsert k v l) = some v := by
  induction l with
  | nil => simp [upsert, alookup]
  | cons p rest ih =>
    obtain ⟨k', v'⟩ := p
    by_cases h : k' = k
    · simp [upsert, h, alookup]
    · simp [upsert, h, alookup, ih]

theorem alookup_upsert_ne {α : Type} (k k₂ : String) (v : α) (l : List (String × α))
    (h : k₂ ≠ k) : alookup k₂ (upsert k v l) = alookup k₂ l := by
  have hne : ¬(k = k₂) := fun hh => h hh.symm
  induction l with
  | nil => simp [upsert, alookup, hne]
  | cons p rest ih =>
    obtain ⟨k', v'⟩ := p
    by_cases hk : k' = k
    · subst hk
      simp [upsert, alookup, hne]
    · simp only [upsert, if_neg hk, alookup]
      by_cases hk2 : k' = k₂
      · simp [hk2]
      · simp [hk2, ih]

theorem sum_upsert (k : String) (v : ℚ) (l : List (String × ℚ)) :
    ((upsert k v l).map Prod.snd).sum
      = (l.map Prod.snd).sum - ((alookup k l).getD 0) + v := by
  induction l with
  | nil => simp [upsert, alookup]
  | cons p rest ih =>
    obtain ⟨k', v'⟩ := p
    by_cases h : k' = k
    · simp [upsert, h, alookup]
      ring
    · simp only [upsert, if_neg h, alookup, List.map_cons, List.sum_cons, ih]
      ring

/-! ## Batch-loop lemmas -/

theorem get_cons_eraseIdx_perm {α : Type} :
    ∀ (l : List α) (i : Nat) (h : i < l.length),
      List.Perm (l.get ⟨i, h⟩ :: l.eraseIdx i) l
  | a :: t, 0, _ => by simp [List.eraseIdx]
  | a :: t, i + 1, h => by
    have ht : i < t.length := by simpa using h
    have ih := get_cons_eraseIdx_perm t i ht
    simp only [List.get, List.eraseIdx]
    exact ((List.Perm.swap a (t.get ⟨i, ht⟩) _).trans (List.Perm.cons a ih))

theorem batchLoop_spec (pref : JobType) :
    ∀ (n : Nat) (queue : List Job) (active : Int),
      List.Perm ((batchLoop pref n queue active).1 ++ (batchLoop pref n queue active).2.1) queue
      ∧ (batchLoop pref n queue active).2.2
          = active + ((batchLoop pref n queue active).1.length : Int)
      ∧ (batchLoop pref n queue active).1.length ≤ n := by
  intro n
  induction n with
  | zero => intro queue active; simp [batchLoop]
  | succ n ih =>
    intro queue active
    by_cases h : pickIdx queue pref < queue.length
    · have ihq := ih (queue.eraseIdx (pickIdx queue pref)) (active + 1)
      simp only [batchLoop, dif_pos h]
      refine ⟨?_, ?_, ?_⟩
      · exact (List.Perm.cons _ ihq.1).trans (get_cons_eraseIdx_perm queue _ h)
      · simp only [List.length_cons, ihq.2.1]
        push_cast
        ring
      · simpa using Nat.succ_le_succ ihq.2.2
    · have ihq := ih queue active
      simp only [batchLoop, dif_neg h]
      exact ⟨ihq.1, ihq.2.1, Nat.le_succ_of_le ihq.2.2⟩

/-! ## Characterization lemmas for the scheduler operations -/

theorem registerDevice_quotas (s : SchedulerState) (device : DeviceInfo) :
    (registerDevice s device).deviceQuotas
      = upsert device.id (newQuota device (calculateWeight device)) s.deviceQuotas := rfl

theorem registerDevice_weights (s : SchedulerState) (device : DeviceInfo) :
    (registerDevice s device).deviceWeights
      = upsert device.id (calculateWeight device) s.deviceWeights := rfl

theorem registerDevice_total (s : SchedulerState) (device : DeviceInfo) :
    (registerDevice s device).totalWeight
      = s.totalWeight + (calculateWeight device - (alookup device.id s.deviceWeights).getD 0) :=
  rfl

theorem getJobBatchCore_nonpos (s : SchedulerState) (device : DeviceInfo) (rc : ℚ)
    (quota : DeviceJobQuota) (h : quota.maxConcurrent - quota.activeJobs ≤ 0) :
    getJobBatchCore s device rc quota = ([], s) := by
  unfold getJobBatchCore
  rw [if_pos h]

theorem getJobBatchCore_pos (s : SchedulerState) (device : DeviceInfo) (rc : ℚ)
    (quota : DeviceJobQuota) (h : 0 < quota.maxConcurrent - quota.activeJobs) :
    getJobBatchCore s device rc quota
      = ((batchLoop (preferredType device)
            (min (share s device.id rc)
              (min (quota.maxConcurrent - quota.activeJobs) (s.jobQueue.length : Int))).toNat
            s.jobQueue quota.activeJobs).1,
          { s with
            jobQueue := (batchLoop (preferredType device)
              (min (share s device.id rc)
                (min (quota.maxConcurrent - quota.activeJobs) (s.jobQueue.length : Int))).toNat
              s.jobQueue quota.activeJobs).2.1
            deviceQuotas := upsert device.id
              { quota with
                activeJobs := (batchLoop (preferredType device)
                  (min (share s device.id rc)
                    (min (quota.maxConcurrent - quota.activeJobs)
                      (s.jobQueue.length : Int))).toNat
                  s.jobQueue quota.activeJobs).2.2 }
              s.deviceQuotas }) := by
  unfold getJobBatchCore
  rw [if_neg (by omega)]

theorem getJobBatchForDevice_some (s : SchedulerState) (device : DeviceInfo) (rc : ℚ)
    (quota : DeviceJobQuota) (h : alookup device.id s.deviceQuotas = some quota) :
    getJobBatchForDevice s device rc = getJobBatchCore s device rc quota := by
  unfold getJobBatchForDevice
  rw [h]

theorem getJobBatchForDevice_none (s : SchedulerState) (device : DeviceInfo) (rc : ℚ)
    (h : alookup device.id s.deviceQuotas = none) :
    getJobBatchForDevice s device rc
      = getJobBatchCore (registerDevice s device) device rc
          (newQuota device (calculateWeight device)) := by
  unfold getJobBatchForDevice
  rw [h]
  have h2 : alookup device.id (registerDevice s device).deviceQuotas
      = some (newQuota device (calculateWeight device)) := by
    rw [registerDevice_quotas]
    exact alookup_upsert_self _ _ _
  simp only [h2]

theorem releaseJobSlot_frame (s : SchedulerState) (deviceId : String) (dur : Option ℚ) :
    (releaseJobSlot s deviceId dur).deviceWeights = s.deviceWeights
    ∧ (releaseJobSlot s deviceId dur).totalWeight = s.totalWeight
    ∧ (releaseJobSlot s deviceId dur).jobQueue = s.jobQueue := by
  unfold releaseJobSlot
  split
  · exact ⟨rfl, rfl, rfl⟩
  · split
    · exact ⟨rfl, rfl, rfl⟩
    · exact ⟨rfl, rfl, rfl⟩

theorem getJobBatchCore_frame (s : SchedulerState) (device : DeviceInfo) (rc : ℚ)
    (quota : DeviceJobQuota) :
    (getJobBatchCore s device rc quota).2.deviceWeights = s.deviceWeights
    ∧ (getJobBatchCore s device rc quota).2.totalWeight = s.totalWeight := by
  by_cases h : quota.maxConcurrent - quota.activeJobs ≤ 0
  · rw [getJobBatchCore_nonpos s device rc quota h]
    exact ⟨rfl, rfl⟩
  · rw [getJobBatchCore_pos s device rc quota (by omega)]
    exact ⟨rfl, rfl⟩

/-! ## Preservation of the quota-bounds invariant -/

theorem one_le_share (s : SchedulerState) (deviceId : String) (rc : ℚ) :
    1 ≤ share s deviceId rc := by
  simp only [share]
  exact le_max_left _ _

theorem newQuota_bounds (device : DeviceInfo) (w : ℚ) :
    0 ≤ (newQuota device w).activeJobs
    ∧ (newQuota device w).activeJobs ≤ (newQuota device w).maxConcurrent := by
  refine ⟨le_refl 0, ?_⟩
  show (0 : Int) ≤ max 10 _
  exact le_trans (by norm_num) (le_max_left _ _)

theorem releasedQuota_active (quota : DeviceJobQuota) (dur : Option ℚ) :
    (releasedQuota quota dur).activeJobs = quota.activeJobs - 1
    ∧ (releasedQuota quota dur).maxConcurrent = quota.maxConcurrent := by
  rcases dur with _ | d
  · exact ⟨rfl, rfl⟩
  · simp only [releasedQuota]
    split <;> exact ⟨rfl, rfl⟩

theorem registerDevice_quotaInv (s : SchedulerState) (device : DeviceInfo)
    (h : QuotaInvariant s) : QuotaInvariant (registerDevice s device) := by
  intro id q hq
  rw [registerDevice_quotas] at hq
  by_cases hid : id = device.id
  · subst hid
    rw [alookup_upsert_self] at hq
    cases hq
    exact newQuota_bounds device (calculateWeight device)
  · rw [alookup_upsert_ne _ _ _ _ hid] at hq
    exact h id q hq

theorem getJobBatchCore_quotaInv (s : SchedulerState) (device : DeviceInfo) (rc : ℚ)
    (quota : DeviceJobQuota) (h0 : 0 ≤ quota.activeJobs)
    (_hmax : quota.activeJobs ≤ quota.maxConcurrent) (h : QuotaInvariant s) :
    QuotaInvariant (getJobBatchCore s device rc quota).2 := by
  by_cases hs : quota.maxConcurrent - quota.activeJobs ≤ 0
  · rw [getJobBatchCore_nonpos s device rc quota hs]
    exact h
  · rw [getJobBatchCore_pos s device rc quota (by omega)]
    intro id q hq
    simp only at hq
    by_cases hid : id = device.id
    · subst hid
      rw [alookup_upsert_self] at hq
      cases hq
      have hspec := batchLoop_spec (preferredType device)
        (min (share s device.id rc)
          (min (quota.maxConcurrent - quota.activeJobs) (s.jobQueue.length : Int))).toNat
        s.jobQueue quota.activeJobs
      have hsh := one_le_share s device.id rc
      have hn0 : (0 : Int) ≤ min (share s device.id rc)
          (min (quota.maxConcurrent - quota.activeJobs) (s.jobQueue.length : Int)) := by
        refine le_min (by omega) (le_min (by omega) (by positivity))
      have hcast : ((min (share s device.id rc)
          (min (quota.maxConcurrent - quota.activeJobs) (s.jobQueue.length : Int))).toNat : Int)
          = min (share s device.id rc)
            (min (quota.maxConcurrent - quota.activeJobs) (s.jobQueue.length : Int)) :=
        Int.toNat_of_nonneg hn0
      have hlen : ((batchLoop (preferredType device)
          (min (share s device.id rc)
            (min (quota.maxConcurrent - quota.activeJobs) (s.jobQueue.length : Int))).toNat
          s.jobQueue quota.activeJobs).1.length : Int)
          ≤ min (share s device.id rc)
              (min (quota.maxConcurrent - quota.activeJobs) (s.jobQueue.length : Int)) := by
        rw [← hcast]
        exact_mod_cast hspec.2.2
      have hmin : min (share s device.id rc)
          (min (quota.maxConcurrent - quota.activeJobs) (s.jobQueue.length : Int))
          ≤ quota.maxConcurrent - quota.activeJobs :=
        le_trans (min_le_right _ _) (min_le_left _ _)
      have hact := hspec.2.1
      dsimp only
      exact ⟨by omega, by omega⟩
    · rw [alookup_upsert_ne _ _ _ _ hid] at hq
      exact h id q hq

theorem releaseJobSlot_quotaInv (s : SchedulerState) (deviceId : String) (dur : Option ℚ)
    (h : QuotaInvariant s) : QuotaInvariant (releaseJobSlot s deviceId dur) := by
  unfold releaseJobSlot
  split
  · exact h
  next quota hq =>
    split
    next hpos =>
      intro id q hq2
      simp only at hq2
      by_cases hid : id = deviceId
      · subst hid
        rw [alookup_upsert_self] at hq2
        cases hq2
        have hb := h _ quota hq
        have ha := releasedQuota_active quota dur
        rw [ha.1, ha.2]
        omega
      · rw [alookup_upsert_ne _ _ _ _ hid] at hq2
        exact h id q hq2
    next => exact h

theorem applySchedOp_quotaInv (s : SchedulerState) (op : SchedOp)
    (h : QuotaInvariant s) : QuotaInvariant (applySchedOp s op) := by
  cases op with
  | register device => exact registerDevice_quotaInv s device h
  | request device rc =>
    show QuotaInvariant (getJobBatchForDevice s device rc).2
    cases hq : alookup device.id s.deviceQuotas with
    | some quota =>
      rw [getJobBatchForDevice_some s device rc quota hq]
      exact getJobBatchCore_quotaInv s device rc quota (h _ _ hq).1 (h _ _ hq).2 h
    | none =>
      rw [getJobBatchForDevice_none s device rc hq]
      exact getJobBatchCore_quotaInv _ device rc _
        (newQuota_bounds device _).1 (newQuota_bounds device _).2
        (registerDevice_quotaInv s device h)
  | release deviceId dur => exact releaseJobSlot_quotaInv s deviceId dur h

theorem runSched_quotaInv (ops : List SchedOp) :
    ∀ (s : SchedulerState), QuotaInvariant s → QuotaInvariant (runSched s ops) := by
  induction ops with
  | nil => intro s h; exact h
  | cons op rest ih =>
    intro s h
    exact ih (applySchedOp s op) (applySchedOp_quotaInv s op h)

/-! ## Preservation of the total-weight invariant -/

theorem registerDevice_weightInv (s : SchedulerState) (device : DeviceInfo)
    (h : WeightInvariant s) : WeightInvariant (registerDevice s device) := by
  unfold WeightInvariant at h ⊢
  rw [registerDevice_total, registerDevice_weights, sum_upsert, h]
  ring

theorem applySchedOp_weightInv (s : SchedulerState) (op : SchedOp)
    (h : WeightInvariant s) : WeightInvariant (applySchedOp s op) := by
  cases op with
  | register device => exact registerDevice_weightInv s device h
  | request device rc =>
    show WeightInvariant (getJobBatchForDevice s device rc).2
    cases hq : alookup device.id s.deviceQuotas with
    | some quota =>
      rw [getJobBatchForDevice_some s device rc quota hq]
      unfold WeightInvariant
      rw [(getJobBatchCore_frame s device rc quota).1,
        (getJobBatchCore_frame s device rc quota).2]
      exact h
    | none =>
      rw [getJobBatchForDevice_none s device rc hq]
      unfold WeightInvariant
      rw [(getJobBatchCore_frame _ device rc _).1, (getJobBatchCore_frame _ device rc _).2]
      exact registerDevice_weightInv s device h
  | release deviceId dur =>
    show WeightInvariant (releaseJobSlot s deviceId dur)
    unfold WeightInvariant
    rw [(releaseJobSlot_frame s deviceId dur).1, (releaseJobSlot_frame s deviceId dur).2.1]
    exact h

theorem runSched_weightInv (ops : List SchedOp) :
    ∀ (s : SchedulerState), WeightInvariant s → WeightInvariant (runSched s ops) := by
  induction ops with
  | nil => intro s h; exact h
  | cons op rest ih =>
    intro s h
    exact ih (applySchedOp s op) (applySchedOp_weightInv s op h)

/-! ## Claim theorems -/

/-- C1: starting from any scheduler state whose quotas are in bounds (the
constructor starts with none), after any sequence of `registerDevice`,
`getJobBatchForDevice` (requestBatch) and `releaseJobSlot` (releaseSlot)
calls, every device's quota satisfies `0 ≤ activeJobs ≤ maxConcurrent`. -/
theorem quota_bounds_any_sequence (s : SchedulerState) (hs : QuotaInvariant s)
    (ops : List SchedOp) : QuotaInvariant (runSched s ops) :=
  runSched_quotaInv ops s hs

theorem quota_bounds_any_sequence_witness :
    QuotaInvariant (runSched (initScheduler [jobA, jobB])
      [SchedOp.register dev4, SchedOp.request dev4 10, SchedOp.release "d" (some 2500)]) :=
  quota_bounds_any_sequence (initScheduler [jobA, jobB])
    (by intro id q hq; simp [initScheduler, alookup] at hq) _

/-- C4: after any sequence of scheduler operations from the freshly
constructed scheduler (any starting queue) — in particular `registerDevice`
(registerOrUpdate) followed immediately by `getJobBatchForDevice`
(requestBatch) — the running `totalWeight` equals the sum of all registered
device weights exactly (so in particular within floating-point tolerance):
re-registering adjusts the total by the delta versus the previous weight and
never double-counts a device. -/
theorem total_weight_matches_sum (queue : List Job) (ops : List SchedOp) :
    WeightInvariant (runSched (initScheduler queue) ops) :=
  runSched_weightInv ops (initScheduler queue) (by simp [WeightInvariant, initScheduler])

/-- C10: `releaseJobSlot` (releaseSlot) never modifies the `deviceWeights`
map or the running `totalWeight`; consequently, after any sequence of
completions, the `share` that `getJobBatchForDevice` computes for any device
and requested count is exactly what it was before. -/
theorem release_slot_share_frame (s : SchedulerState)
    (releases : List (String × Option ℚ)) :
    (releases.foldl (fun st p => releaseJobSlot st p.1 p.2) s).deviceWeights
        = s.deviceWeights
    ∧ (releases.foldl (fun st p => releaseJobSlot st p.1 p.2) s).totalWeight
        = s.totalWeight
    ∧ ∀ (deviceId : String) (rc : ℚ),
        share (releases.foldl (fun st p => releaseJobSlot st p.1 p.2) s) deviceId rc
          = share s deviceId rc := by
  have key : ∀ (rel : List (String × Option ℚ)) (s0 : SchedulerState),
      (rel.foldl (fun st p => releaseJobSlot st p.1 p.2) s0).deviceWeights = s0.deviceWeights
      ∧ (rel.foldl (fun st p => releaseJobSlot st p.1 p.2) s0).totalWeight = s0.totalWeight := by
    intro rel
    induction rel with
    | nil => intro s0; exact ⟨rfl, rfl⟩
    | cons p rest ih =>
      intro s0
      have hstep := releaseJobSlot_frame s0 p.1 p.2
      have hr := ih (releaseJobSlot s0 p.1 p.2)
      exact ⟨hr.1.trans hstep.1, hr.2.trans hstep.2.1⟩
  refine ⟨(key releases s).1, (key releases s).2, ?_⟩
  intro deviceId rc
  simp only [share, (key releases s).1, (key releases s).2]

/-- C2: for a registered device, `getJobBatchForDevice` (requestBatch) returns
the empty list when `availableSlots = maxConcurrent - activeJobs ≤ 0`, never
returns more than `min(share, availableSlots, queueLength)` jobs with
`share = max(1, floor(weight/totalWeight * requestedCount * 3))`, and the
returned batch together with the remaining queue is a permutation of the old
queue — every returned job is removed, so no job is dispatched twice. -/
theorem request_batch_bounds (s : SchedulerState) (device : DeviceInfo) (rc : ℚ)
    (quota : DeviceJobQuota)
    (hq : alookup device.id s.deviceQuotas = some quota)
    (htw : 1 ≤ s.totalWeight) :
    (quota.maxConcurrent - quota.activeJobs ≤ 0 →
      (getJobBatchForDevice s device rc).1 = [])
    ∧ (0 < quota.maxConcurrent - quota.activeJobs →
        ((getJobBatchForDevice s device rc).1.length : Int)
          ≤ min (max 1 ⌊(alookup device.id s.deviceWeights).getD 1 / s.totalWeight * rc * 3⌋)
              (min (quota.maxConcurrent - quota.activeJobs) (s.jobQueue.length : Int)))
    ∧ List.Perm ((getJobBatchForDevice s device rc).1
          ++ (getJobBatchForDevice s device rc).2.jobQueue) s.jobQueue := by
  rw [getJobBatchForDevice_some s device rc quota hq]
  have hshare_eq : share s device.id rc
      = max 1 ⌊(alookup device.id s.deviceWeights).getD 1 / s.totalWeight * rc * 3⌋ := by
    simp only [share]
    rw [max_eq_right htw]
  by_cases hs : quota.maxConcurrent - quota.activeJobs ≤ 0
  · rw [getJobBatchCore_nonpos s device rc quota hs]
    exact ⟨fun _ => rfl, fun hlt => absurd hlt (by omega), by simp⟩
  · rw [getJobBatchCore_pos s device rc quota (by omega)]
    set n := min (share s device.id rc)
      (min (quota.maxConcurrent - quota.activeJobs) (s.jobQueue.length : Int)) with hn
    have hspec := batchLoop_spec (preferredType device) n.toNat s.jobQueue quota.activeJobs
    have hsh := one_le_share s device.id rc
    have hn0 : (0 : Int) ≤ n := by
      rw [hn]
      exact le_min (by omega) (le_min (by omega) (by positivity))
    have hcast : (n.toNat : Int) = n := Int.toNat_of_nonneg hn0
    have hlen : (((batchLoop (preferredType device) n.toNat s.jobQueue
        quota.activeJobs).1.length : Int)) ≤ n := by
      rw [← hcast]
      exact_mod_cast hspec.2.2
    refine ⟨fun hle => absurd hle hs, fun _ => ?_, ?_⟩
    · dsimp only
      rw [← hshare_eq, ← hn]
      exact hlen
    · dsimp only
      exact hspec.1

theorem request_batch_bounds_witness :
    (((getJobBatchForDevice gState devG 1).1.length : Int)
        ≤ min (max 1 ⌊(alookup "g" gState.deviceWeights).getD 1 / gState.totalWeight * 1 * 3⌋)
            (min (16 - 0) (gState.jobQueue.length : Int)))
    ∧ List.Perm ((getJobBatchForDevice gState devG 1).1
          ++ (getJobBatchForDevice gState devG 1).2.jobQueue) gState.jobQueue :=
  ⟨(request_batch_bounds gState devG 1
      { deviceId := "g", weight := 90, activeJobs := 0, maxConcurrent := 16 }
      rfl (by decide)).2.1 (by decide),
   (request_batch_bounds gState devG 1
      { deviceId := "g", weight := 90, activeJobs := 0, maxConcurrent := 16 }
      rfl (by decide)).2.2⟩

/-- C3 counterexample: with device `d` registered and one job active
(`activeJobs = 1`), re-registering the same device via `registerDevice`
leaves `activeJobs = 0`, not the previous value `1` — so registration does
reset the active-job count, contrary to the claim. -/
theorem reregister_resets_active_counterexample :
    (alookup "d" dStateActive.deviceQuotas).map (fun q => q.activeJobs) = some 1
    ∧ (alookup "d" (registerDevice dStateActive dev4).deviceQuotas).map
        (fun q => q.activeJobs) = some 0 := by
  constructor
  · decide
  · decide

/-- C3 amended: re-registering an already-known device recreates its quota
from scratch — weight and maxConcurrent are recomputed and `activeJobs` is
reset to `0` (the previous active-job count is NOT preserved). -/
theorem reregister_quota_amended (s : SchedulerState) (device : DeviceInfo) :
    alookup device.id (registerDevice s device).deviceQuotas
      = some (newQuota device (calculateWeight device)) := by
  rw [registerDevice_quotas]
  exact alookup_upsert_self _ _ _

/-- First iteration of the batch loop on the queue `[A, B]` when the
preferred kind is the matrix-multiply kind: `B` is spliced out first. -/
theorem batchLoop_pair_matmul (A B : Job) (hA : A.type = .MATH_STRESS)
    (hB : B.type = .MAT_MUL) (m : Nat) (active : Int) :
    (batchLoop .MAT_MUL (m + 1) [A, B] active).1
      = B :: (batchLoop .MAT_MUL m [A] (active + 1)).1 := by
  have hpick : pickIdx [A, B] .MAT_MUL = 1 := by
    simp [pickIdx, findIdxAux, hA, hB]
  simp only [batchLoop, hpick]
  norm_num [List.eraseIdx]

/-- First iteration of the batch loop on the queue `[A, B]` when the
preferred kind is the CPU-stress kind: `A` is spliced out first. -/
theorem batchLoop_pair_stress (A B : Job) (hA : A.type = .MATH_STRESS)
    (m : Nat) (active : Int) :
    (batchLoop .MATH_STRESS (m + 1) [A, B] active).1
      = A :: (batchLoop .MATH_STRESS m [B] (active + 1)).1 := by
  have hpick : pickIdx [A, B] .MATH_STRESS = 0 := by
    simp [pickIdx, findIdxAux, hA]
  simp only [batchLoop, hpick]
  norm_num [List.eraseIdx]

/-- C5 counterexample: with the queue `[A(CPU-stress), B(matrix-multiply)]`
and a single registered GPU device requesting 1 job, the batch is
`[B, A]` — two jobs, because `share = max(1, floor(1 * 1 * 3)) = 3` and
`batchSize = min(3, 16, 2) = 2` — not exactly `[B]` as claimed. -/
theorem preferred_kind_counterexample :
    (getJobBatchForDevice gState devG 1).1 = [jobB, jobA]
    ∧ (getJobBatchForDevice gState devG 1).1 ≠ [jobB] := by
  have hbatch : (getJobBatchForDevice gState devG 1).1 = [jobB, jobA] := by
    rw [getJobBatchForDevice_some gState devG 1
        { deviceId := "g", weight := 90, activeJobs := 0, maxConcurrent := 16 } rfl,
      getJobBatchCore_pos _ _ _ _ (by decide)]
    have hshare : share gState devG.id 1 = 3 := by
      simp only [share, gState, alookup, devG]
      norm_num
    rw [hshare]
    decide
  exact ⟨hbatch, by rw [hbatch]; decide⟩

/-- C5 amended: with a pending queue `[A(kind=CPU-stress),
B(kind=matrix-multiply)]` and a registered device with a free slot, the FIRST
job handed out is `B` for a GPU-capable device and `A` for a non-GPU device
(the scheduler removes the first queued job of the preferred kind, falling
back to the oldest); the batch is EXACTLY `[B]` (resp. `[A]`) when the
computed batch size `min(share, availableSlots, queueLength)` equals 1 —
but may contain further jobs otherwise. -/
theorem preferred_kind_amended (s : SchedulerState) (device : DeviceInfo) (rc : ℚ)
    (quota : DeviceJobQuota) (A B : Job)
    (hq : alookup device.id s.deviceQuotas = some quota)
    (hslots : 0 < quota.maxConcurrent - quota.activeJobs)
    (hqueue : s.jobQueue = [A, B])
    (hA : A.type = .MATH_STRESS) (hB : B.type = .MAT_MUL) :
    (device.capabilities.gpuAvailable = true →
        (getJobBatchForDevice s device rc).1.head? = some B)
    ∧ (device.capabilities.gpuAvailable = false →
        (getJobBatchForDevice s device rc).1.head? = some A)
    ∧ (min (share s device.id rc) (min (quota.maxConcurrent - quota.activeJobs)
          (s.jobQueue.length : Int)) = 1 →
        (getJobBatchForDevice s device rc).1
          = [if device.capabilities.gpuAvailable then B else A]) := by
  rw [getJobBatchForDevice_some s device rc quota hq,
    getJobBatchCore_pos s device rc quota hslots]
  set n := min (share s device.id rc)
    (min (quota.maxConcurrent - quota.activeJobs) (s.jobQueue.length : Int)) with hn
  have hsh := one_le_share s device.id rc
  have hqlen : (s.jobQueue.length : Int) = 2 := by rw [hqueue]; rfl
  have hn1 : 1 ≤ n := by
    rw [hn]
    exact le_min hsh (le_min (by omega) (by omega))
  have hm : n.toNat = (n.toNat - 1) + 1 := by omega
  refine ⟨?_, ?_, ?_⟩
  · intro hgpu
    have hpref : preferredType device = .MAT_MUL := by simp [preferredType, hgpu]
    dsimp only
    rw [hqueue, hpref, hm, batchLoop_pair_matmul A B hA hB]
    simp
  · intro hgpu
    have hpref : preferredType device = .MATH_STRESS := by simp [preferredType, hgpu]
    dsimp only
    rw [hqueue, hpref, hm, batchLoop_pair_stress A B hA]
    simp
  · intro h1
    have ht : n.toNat = 1 := by omega
    cases hgpu : device.capabilities.gpuAvailable with
    | true =>
      have hpref : preferredType device = .MAT_MUL := by simp [preferredType, hgpu]
      dsimp only
      rw [hqueue, hpref, ht, show (1 : Nat) = 0 + 1 from rfl, batchLoop_pair_matmul A B hA hB]
      simp [batchLoop]
    | false =>
      have hpref : preferredType device = .MATH_STRESS := by simp [preferredType, hgpu]
      dsimp only
      rw [hqueue, hpref, ht, show (1 : Nat) = 0 + 1 from rfl, batchLoop_pair_stress A B hA]
      simp [batchLoop]

theorem preferred_kind_amended_witness :
    (getJobBatchForDevice gStateFull devG 1).1.head? = some jobB
    ∧ (getJobBatchForDevice gStateFull devG 1).1
        = [if devG.capabilities.gpuAvailable then jobB else jobA] := by
  have h := preferred_kind_amended gStateFull devG 1
    { deviceId := "g", weight := 90, activeJobs := 15, maxConcurrent := 16 }
    jobA jobB rfl (by decide) rfl rfl rfl
  have hsh : share gStateFull devG.id 1 = 3 := by
    simp only [share, gStateFull, gState, alookup, devG]
    norm_num
  exact ⟨h.1 rfl, h.2.2 (by rw [hsh]; decide)⟩

/-- C6 counterexample: a device with 4 CPU cores, no GPU and opsScore 0 gets
weight `max(1, 4*10 + 0 + min(0/1000, 100)) = 40` from `calculateWeight`,
not 41 as the claim asserts. -/
theorem register_weight_counterexample :
    calculateWeight dev4 = 40 ∧ calculateWeight dev4 ≠ 41 := by
  have h : calculateWeight dev4 = 40 := by
    simp only [calculateWeight, dev4, orDefault]
    norm_num
  exact ⟨h, by rw [h]; decide⟩

/-- C6 amended: registering a device with 4 CPU cores, no GPU and opsScore 0
assigns it weight 40 = max(1, 4*10 + 0 + min(0/1000, 100)) under
`calculateWeight`, and that weight is what `registerDevice` records. -/
theorem register_weight_amended (device : DeviceInfo)
    (hc : device.capabilities.cpuCores = 4)
    (hg : device.capabilities.gpuAvailable = false)
    (ho : device.opsScore = 0) :
    calculateWeight device = 40
    ∧ ∀ s : SchedulerState,
        alookup device.id (registerDevice s device).deviceWeights = some 40 := by
  have h : calculateWeight device = 40 := by
    simp only [calculateWeight, hc, hg, ho, orDefault]
    norm_num
  refine ⟨h, fun s => ?_⟩
  rw [registerDevice_weights, h]
  exact alookup_upsert_self _ _ _

theorem register_weight_amended_witness :
    calculateWeight dev4 = 40
    ∧ alookup "d" (registerDevice (initScheduler []) dev4).deviceWeights = some 40 :=
  ⟨(register_weight_amended dev4 rfl rfl rfl).1,
   (register_weight_amended dev4 rfl rfl rfl).2 (initScheduler [])⟩

/-! ## Device registry: sweep and DISABLED stickiness -/

theorem heartbeatDevice_status (dev : DeviceInfo) (now : Int) (li : Option Int) :
    (heartbeatDevice dev now li).status
      = if dev.status = .OFFLINE ∨ dev.status = .REGISTERED then .ONLINE
        else dev.status := by
  unfold heartbeatDevice
  rcases li with _ | v
  · dsimp only
    split <;> rfl
  · dsimp only
    by_cases hv : v ≠ 0
    · rw [if_pos hv]
      split <;> rfl
    · rw [if_neg hv]
      split <;> rfl

/-- C7: the sweep deletes a device whose silence exceeds the 5-minute delete
threshold; otherwise, silence beyond the 60-second offline threshold moves a
non-DISABLED device to OFFLINE; a device silent for less than 60 seconds is
left completely unchanged. -/
theorem sweep_thresholds (m : DevMap) (now : Int) (id : String) (d : DeviceInfo)
    (hm : m id = some d) :
    (DELETE_THRESHOLD < now - d.lastHeartbeat → cleanup now m id = none)
    ∧ (now - d.lastHeartbeat ≤ DELETE_THRESHOLD →
        OFFLINE_THRESHOLD < now - d.lastHeartbeat → d.status ≠ .DISABLED →
        cleanup now m id = some { d with status := .OFFLINE })
    ∧ (now - d.lastHeartbeat < OFFLINE_THRESHOLD → cleanup now m id = some d) := by
  unfold cleanup
  rw [hm]
  simp only [Option.some_bind]
  refine ⟨?_, ?_, ?_⟩
  · intro h
    rw [if_pos h]
  · intro h1 h2 h3
    rw [if_neg (by omega), if_pos ⟨h3, h2⟩]
  · intro h
    have hd : ¬(DELETE_THRESHOLD < now - d.lastHeartbeat) := by
      simp only [DELETE_THRESHOLD, OFFLINE_THRESHOLD] at *
      omega
    rw [if_neg hd, if_neg (fun hc => by
      have := hc.2
      simp only [DELETE_THRESHOLD, OFFLINE_THRESHOLD] at *
      omega)]

theorem sweep_thresholds_witness :
    cleanup 400000 (oneDev .ONLINE) "d" = none
    ∧ cleanup 100000 (oneDev .ONLINE) "d" = some { dev4 with status := .OFFLINE }
    ∧ cleanup 1000 (oneDev .ONLINE) "d" = some { dev4 with status := .ONLINE } :=
  ⟨(sweep_thresholds (oneDev .ONLINE) 400000 "d" _ rfl).1 (by decide),
   (sweep_thresholds (oneDev .ONLINE) 100000 "d" _ rfl).2.1 (by decide) (by decide) (by decide),
   (sweep_thresholds (oneDev .ONLINE) 1000 "d" _ rfl).2.2 (by decide)⟩

theorem applyDevOp_disabled (m : DevMap) (id : String)
    (h : ∀ d, m id = some d → d.status = .DISABLED) (op : DevOp) :
    ∀ d, applyDevOp m op id = some d → d.status = .DISABLED := by
  cases op with
  | beat bid now li =>
    intro d hd0
    have hd : heartbeat m bid now li id = some d := hd0
    unfold heartbeat at hd
    cases hb : m bid with
    | none =>
      rw [hb] at hd
      exact h d hd
    | some dev =>
      rw [hb] at hd
      dsimp only at hd
      by_cases hib : id = bid
      · rw [if_pos hib] at hd
        cases hd
        have hdev : dev.status = .DISABLED := h dev (hib ▸ hb)
        rw [heartbeatDevice_status, hdev]
        rfl
      · rw [if_neg hib] at hd
        exact h d hd
  | sweep now =>
    intro d hd0
    have hd : cleanup now m id = some d := hd0
    unfold cleanup at hd
    cases hb : m id with
    | none =>
      rw [hb] at hd
      cases hd
    | some dev =>
      have hdis := h dev hb
      rw [hb] at hd
      simp only [Option.some_bind] at hd
      by_cases hdel : DELETE_THRESHOLD < now - dev.lastHeartbeat
      · rw [if_pos hdel] at hd
        cases hd
      · rw [if_neg hdel, if_neg (fun hc => hc.1 hdis)] at hd
        cases hd
        exact hdis

/-- C8: a DISABLED device never has its status changed by any sequence of
heartbeats and sweeps — if it is still present it is still DISABLED (the
sweep may delete it after 5 minutes of silence, but never rewrites the
status) — and an explicit `toggleDevice` with `enabled = true` moves it back
to ONLINE. -/
theorem disabled_sticky (m : DevMap) (id : String) (d : DeviceInfo)
    (hm : m id = some d) (hd : d.status = .DISABLED) (ops : List DevOp) :
    (∀ d', runDev m ops id = some d' → d'.status = .DISABLED)
    ∧ (∀ (m' : DevMap) (d'' : DeviceInfo), m' id = some d'' →
        toggleDevice m' id true id = some { d'' with status := .ONLINE }) := by
  constructor
  · have key : ∀ (ops : List DevOp) (m0 : DevMap),
        (∀ e, m0 id = some e → e.status = .DISABLED) →
        ∀ d', runDev m0 ops id = some d' → d'.status = .DISABLED := by
      intro ops
      induction ops with
      | nil => intro m0 h0 d' hd'; exact h0 d' hd'
      | cons op rest ih =>
        intro m0 h0 d' hd'
        exact ih (applyDevOp m0 op) (applyDevOp_disabled m0 id h0 op) d' hd'
    exact key ops m (fun e he => by rw [hm] at he; cases he; exact hd)
  · intro m' d'' hm'
    unfold toggleDevice
    rw [hm']
    simp

theorem disabled_sticky_witness :
    ({ dev4 with status := .DISABLED, lastHeartbeat := 50, lastUserInteraction := 10 }
        : DeviceInfo).status = .DISABLED
    ∧ toggleDevice (oneDev .DISABLED) "d" true "d"
        = some { dev4 with status := .ONLINE } := by
  refine ⟨(disabled_sticky (oneDev .DISABLED) "d" { dev4 with status := .DISABLED }
      rfl rfl [DevOp.beat "d" 50 (some 10), DevOp.sweep 1000]).1 _ (by decide), ?_⟩
  exact (disabled_sticky (oneDev .DISABLED) "d" { dev4 with status := .DISABLED }
      rfl rfl []).2 (oneDev .DISABLED) { dev4 with status := .DISABLED } rfl

/-! ## Token issuance rate limiting -/

/-- C9: `generateToken` is a 60-second sliding-window rate limit keyed per
swarm: it issues a token exactly when fewer than 5 issuances for that swarm
lie within the trailing 60 seconds, it leaves other swarms' issuance logs
untouched, and concretely 5 calls at times 0..4 succeed, the 6th within the
window is refused, and a call after the window has slid past succeeds
again. -/
theorem token_rate_limit (st : AuthState) (S : String) (now : Int) (tok : String) :
    ((((alookup S st.tokenGenerationLog).getD []).filter
        (fun t => now - 60000 < t)).length < 5 →
      (generateToken st S now tok).1 = some tok)
    ∧ (5 ≤ (((alookup S st.tokenGenerationLog).getD []).filter
        (fun t => now - 60000 < t)).length →
      (generateToken st S now tok).1 = none)
    ∧ (∀ S', S' ≠ S →
        alookup S' (generateToken st S now tok).2.tokenGenerationLog
          = alookup S' st.tokenGenerationLog)
    ∧ (issueSeq initAuth "S" [0, 1, 2, 3, 4, 5, 60001]).1
        = [true, true, true, true, true, false, true] := by
  refine ⟨?_, ?_, ?_, by decide⟩
  · intro h
    unfold generateToken
    rw [if_neg (by omega)]
  · intro h
    unfold generateToken
    rw [if_pos h]
  · intro S' hne
    unfold generateToken
    by_cases h : 5 ≤ (((alookup S st.tokenGenerationLog).getD []).filter
        (fun t => now - 60000 < t)).length
    · rw [if_pos h]
    · rw [if_neg h]
      dsimp only
      exact alookup_upsert_ne S S' _ _ hne

theorem token_rate_limit_witness :
    (generateToken initAuth "S" 0 "TOK").1 = some "TOK"
    ∧ (generateToken fiveIssued "S" 50 "TOK").1 = none
    ∧ alookup "R" (generateToken fiveIssued "S" 50 "TOK").2.tokenGenerationLog
        = alookup "R" fiveIssued.tokenGenerationLog :=
  ⟨(token_rate_limit initAuth "S" 0 "TOK").1 (by decide),
   (token_rate_limit fiveIssued "S" 50 "TOK").2.1 (by decide),
   (token_rate_limit fiveIssued "S" 50 "TOK").2.2.1 "R" (by decide)⟩

end OstrichSwarm
